import Mathlib

/-!
Verification of the moderation-platform repository.

The development shallowly embeds the dispatcher lambda
(`src/moderation_platform/lambdas/start_moderation_process/lambda_function.py`)
and the two Step Functions moderation workflows
(`src/moderation_platform/moderation_stack.py`).

Python strings are modelled as lists of Unicode code points (`List Nat`),
so that `str.lower`, `os.path.splitext` and `urllib.parse.unquote_plus`
become code-point-level functions translated from their CPython sources.
-/

namespace ModerationPlatform

/-- A Python `str`, modelled as its sequence of Unicode code points. -/
abbrev PyStr := List Nat

/-- Code point of a single character, used to write readable literals. -/
def code (c : Char) : Nat := c.toNat

/-- Code points of a Lean string literal, used to embed Python string literals. -/
def pyStr (s : String) : PyStr := s.data.map Char.toNat

/-- One step of Python `str.lower` restricted to ASCII: uppercase letters
`A`..`Z` (65..90) map to `a`..`z` (97..122); every other code point is fixed.
The object keys the dispatcher handles are ASCII, so this is the fragment of
`str.lower` the source exercises. -/
def lowerChar (n : Nat) : Nat :=
  if 65 ≤ n ∧ n ≤ 90 then n + 32 else n

/-- ASCII upper-casing, used to state case-insensitivity of the classifier. -/
def upperChar (n : Nat) : Nat :=
  if 97 ≤ n ∧ n ≤ 122 then n - 32 else n

/-- Python `str.rfind` for a single character: highest index of `c` in the
list, or `-1` when absent (as an `Int`, matching CPython's convention that
feeds the index comparison in `splitext`). -/
def rfind (c : Nat) : PyStr → Int
  | [] => -1
  | x :: xs =>
    let r := rfind c xs
    if 0 ≤ r then r + 1 else if x = c then 0 else -1

/-- Function `posixpath.splitext` from CPython (`genericpath._splitext` with separator
`/` and extension separator `.`): the extension starts at the last dot of the
final path component, unless every character of that component before the dot
is itself a dot (leading dots never start an extension). -/
def splitext (p : PyStr) : PyStr × PyStr :=
  let sepIndex := rfind (code '/') p
  let dotIndex := rfind (code '.') p
  if sepIndex < dotIndex then
    let base := (p.drop (sepIndex + 1).toNat).take (dotIndex - sepIndex - 1).toNat
    if base.any (fun c => c ≠ code '.') then
      (p.take dotIndex.toNat, p.drop dotIndex.toNat)
    else (p, [])
  else (p, [])

/-- Constant `TEXT_EXTENSIONS` from `lambda_function.py`. -/
def TEXT_EXTENSIONS : List PyStr := [pyStr ".txt", pyStr ".md"]

/-- Constant `IMAGE_EXTENSIONS` from `lambda_function.py`. -/
def IMAGE_EXTENSIONS : List PyStr :=
  [pyStr ".jpg", pyStr ".jpeg", pyStr ".png", pyStr ".gif", pyStr ".bmp", pyStr ".webp"]

/-- Result type of `determine_file_type` (the Python function returns the
literals `'text'`, `'image'` or `'unknown'`). -/
inductive FileType
  | text
  | image
  | unknown
deriving DecidableEq, Repr

/-- Function `determine_file_type` from `lambda_function.py`: lowercase the whole key,
take its `splitext` extension, and look it up in the two extension lists. -/
def determine_file_type (object_key : PyStr) : FileType :=
  let ext := (splitext (object_key.map lowerChar)).2
  if ext ∈ TEXT_EXTENSIONS then FileType.text
  else if ext ∈ IMAGE_EXTENSIONS then FileType.image
  else FileType.unknown

/-- Value of an ASCII hex digit, accepting both letter cases like CPython's
`_hextobyte` table in `urllib.parse`; `none` for a non-hex code point. -/
def hexDigitVal (n : Nat) : Option Nat :=
  if 48 ≤ n ∧ n ≤ 57 then some (n - 48)
  else if 65 ≤ n ∧ n ≤ 70 then some (n - 55)
  else if 97 ≤ n ∧ n ≤ 102 then some (n - 87)
  else none

/-- A token of the percent-decoding pass: either a raw byte produced by a
valid `%XX` escape, or a code point passed through unchanged. -/
inductive PctTok
  | byte (b : Nat)
  | chr (c : Nat)
deriving DecidableEq, Repr

/-- First pass of `urllib.parse.unquote`: each valid `%XX` escape becomes the
byte `XX`; a `%` not followed by two hex digits is passed through literally,
as are all other code points. -/
def pctTokenize : PyStr → List PctTok
  | [] => []
  | n :: a :: b :: rest2 =>
    if n = code '%' then
      match hexDigitVal a, hexDigitVal b with
      | some ha, some hb => PctTok.byte (16 * ha + hb) :: pctTokenize rest2
      | _, _ => PctTok.chr n :: pctTokenize (a :: b :: rest2)
    else PctTok.chr n :: pctTokenize (a :: b :: rest2)
  | n :: rest => PctTok.chr n :: pctTokenize rest

/-- The Unicode replacement character U+FFFD emitted by `errors='replace'`. -/
def REPLACEMENT : Nat := 65533

/-- Second byte constraint of a three-byte UTF-8 sequence with lead byte `b`
(excludes overlong encodings for lead `0xE0` and surrogates for lead `0xED`). -/
def utf8Cont3 (b c : Nat) : Bool :=
  if b = 224 then 160 ≤ c ∧ c ≤ 191
  else if b = 237 then 128 ≤ c ∧ c ≤ 159
  else 128 ≤ c ∧ c ≤ 191

/-- Second byte constraint of a four-byte UTF-8 sequence with lead byte `b`
(excludes overlong encodings for lead `0xF0` and values above U+10FFFF for
lead `0xF4`). -/
def utf8Cont4 (b c : Nat) : Bool :=
  if b = 240 then 144 ≤ c ∧ c ≤ 191
  else if b = 244 then 128 ≤ c ∧ c ≤ 143
  else 128 ≤ c ∧ c ≤ 191

/-- A UTF-8 continuation byte. -/
def isUtf8Cont (c : Nat) : Bool := 128 ≤ c ∧ c ≤ 191

/-- UTF-8 decoding of a byte run with `errors='replace'` semantics: a valid
sequence yields its code point; an invalid or truncated sequence yields one
replacement character for its maximal valid prefix and decoding resumes at
the offending byte. -/
def utf8Decode : List Nat → List Nat
  | [] => []
  | b :: rest =>
    if b < 128 then b :: utf8Decode rest
    else if 194 ≤ b ∧ b ≤ 223 then
      match rest with
      | [] => [REPLACEMENT]
      | c :: rest2 =>
        if isUtf8Cont c then ((b - 192) * 64 + (c - 128)) :: utf8Decode rest2
        else REPLACEMENT :: utf8Decode (c :: rest2)
    else if 224 ≤ b ∧ b ≤ 239 then
      match rest with
      | [] => [REPLACEMENT]
      | c :: rest2 =>
        if utf8Cont3 b c then
          match rest2 with
          | [] => [REPLACEMENT]
          | d :: rest3 =>
            if isUtf8Cont d then
              (((b - 224) * 64 + (c - 128)) * 64 + (d - 128)) :: utf8Decode rest3
            else REPLACEMENT :: utf8Decode (d :: rest3)
        else REPLACEMENT :: utf8Decode (c :: rest2)
    else if 240 ≤ b ∧ b ≤ 244 then
      match rest with
      | [] => [REPLACEMENT]
      | c :: rest2 =>
        if utf8Cont4 b c then
          match rest2 with
          | [] => [REPLACEMENT]
          | d :: rest3 =>
            if isUtf8Cont d then
              match rest3 with
              | [] => [REPLACEMENT]
              | e :: rest4 =>
                if isUtf8Cont e then
                  ((((b - 240) * 64 + (c - 128)) * 64 + (d - 128)) * 64 + (e - 128))
                    :: utf8Decode rest4
                else REPLACEMENT :: utf8Decode (e :: rest4)
            else REPLACEMENT :: utf8Decode (d :: rest3)
        else REPLACEMENT :: utf8Decode (c :: rest2)
    else REPLACEMENT :: utf8Decode rest

/-- Second pass of `urllib.parse.unquote`, written with an explicit buffer of
pending escape-produced bytes: maximal runs of escape-produced bytes are
decoded as UTF-8 (with `errors='replace'`), all other code points are appended
unchanged — matching how CPython accumulates consecutive `%XX` escapes into
one byte string before decoding it.  `acc` holds the pending bytes in reverse
order. -/
def pctDetokAux (acc : List Nat) : List PctTok → PyStr
  | [] => utf8Decode acc.reverse
  | PctTok.byte b :: rest => pctDetokAux (b :: acc) rest
  | PctTok.chr c :: rest => utf8Decode acc.reverse ++ c :: pctDetokAux [] rest

/-- Second pass of `urllib.parse.unquote` on a whole token list. -/
def pctDetokenize (l : List PctTok) : PyStr := pctDetokAux [] l

/-- Function `urllib.parse.unquote` on a string, restricted to the default UTF-8 /
`errors='replace'` configuration the dispatcher uses. -/
def unquote (s : PyStr) : PyStr := pctDetokenize (pctTokenize s)

/-- Function `urllib.parse.unquote_plus`: replace every `+` with a space, then
percent-decode. -/
def unquote_plus (s : PyStr) : PyStr :=
  unquote (s.map (fun n => if n = code '+' then code ' ' else n))

/-- The `s3.bucket` sub-object of an S3 event record (`name` may be absent,
matching the chain of `dict.get` calls in `process_queue_record`). -/
structure S3Bucket where
  name : Option PyStr
deriving DecidableEq, Repr

/-- The `s3.object` sub-object of an S3 event record. -/
structure S3EventObject where
  key : Option PyStr
deriving DecidableEq, Repr

/-- The `s3` sub-object of an S3 event record. -/
structure S3Entity where
  bucket : Option S3Bucket
  object : Option S3EventObject
deriving DecidableEq, Repr

/-- One S3 event record from an SQS message body, with exactly the fields the
dispatcher reads (`eventSource`, `eventName`, `s3.bucket.name`,
`s3.object.key`); every field is optional because the source accesses each
through `dict.get`. -/
structure S3Record where
  eventSource : Option PyStr
  eventName : Option PyStr
  s3 : Option S3Entity
deriving DecidableEq, Repr

/-- The errors `process_queue_record` can raise (both are `ValueError` in the
source; the spec's taxonomy names them `MalformedEventError` and
`UnsupportedContentTypeError`).  The payloads record the interpolated values
of the Python error messages. -/
inductive DispatchError
  | malformedEvent (record : S3Record)
  | unsupportedContentType (object_key : PyStr)
deriving DecidableEq, Repr

/-- The JSON input of a Text Workflow execution, as built by
`start_text_moderation_workflow`. -/
structure TextStartInput where
  inputText : PyStr
  languageCode : PyStr
deriving DecidableEq, Repr

/-- The JSON input of an Image Workflow execution, as built by
`start_image_moderation_workflow`. -/
structure ImageStartInput where
  objectKey : PyStr
deriving DecidableEq, Repr

/-- An observable workflow-start call issued by the dispatcher
(`sfn_client.start_execution` on the text or image state machine). -/
inductive DispatchAction
  | startText (input : TextStartInput)
  | startImage (input : ImageStartInput)
deriving DecidableEq, Repr

/-- Function `start_text_moderation_workflow` from `lambda_function.py`: starts the
text state machine with input `{inputText, languageCode}`. -/
def start_text_moderation_workflow (text language_code : PyStr) : DispatchAction :=
  DispatchAction.startText ⟨text, language_code⟩

/-- Function `start_image_moderation_workflow` from `lambda_function.py`: starts the
image state machine with input `{objectKey}`. -/
def start_image_moderation_workflow (object_key : PyStr) : DispatchAction :=
  DispatchAction.startImage ⟨object_key⟩

/-- Function `process_queue_record` from `lambda_function.py`.  The S3 payload fetch
plus UTF-8 decode (`s3_client.get_object` / `body.read().decode('utf-8')`) is
the external storage collaborator, abstracted as the function `fetch` from an
optional bucket name and a key to the decoded payload.  A raised exception is
an `Except.error`; a completed call is `Except.ok` with the workflow start it
performed. -/
def process_queue_record (fetch : Option PyStr → PyStr → PyStr) (record : S3Record) :
    Except DispatchError DispatchAction :=
  let s3_object := record.s3.getD ⟨none, none⟩
  let bucket_name := (s3_object.bucket.getD ⟨none⟩).name
  let object_key0 := (s3_object.object.getD ⟨none⟩).key
  match object_key0 with
  | none => Except.error (DispatchError.malformedEvent record)
  | some k =>
    -- Python `if not object_key` is also true for the empty string
    if k = [] then Except.error (DispatchError.malformedEvent record)
    else
      let object_key := unquote_plus k
      match determine_file_type object_key with
      | FileType.text =>
        Except.ok (start_text_moderation_workflow (fetch bucket_name object_key) (pyStr "en"))
      | FileType.image =>
        Except.ok (start_image_moderation_workflow object_key)
      | FileType.unknown =>
        Except.error (DispatchError.unsupportedContentType object_key)

/-- Python `str.startswith` on code-point lists. -/
def startswith (s pre : PyStr) : Bool :=
  match s, pre with
  | _, [] => true
  | [], _ :: _ => false
  | c :: cs, p :: ps => c = p && startswith cs ps

/-- Function `is_allowed_event` from `lambda_function.py`: the record's `eventSource`
must equal `aws:s3` and its `eventName` must start with `ObjectCreated:`
(a missing `eventName` defaults to the empty string). -/
def is_allowed_event (s3_record : S3Record) : Bool :=
  decide (s3_record.eventSource = some (pyStr "aws:s3")) &&
    startswith (s3_record.eventName.getD []) (pyStr "ObjectCreated:")

/-- The record loop of `lambda_handler`: records are handled in order; a
record that is not an allowed S3 object-creation event is skipped (`continue`
after a log line), any exception raised by `process_queue_record` propagates
and aborts the invocation, and the workflow starts of the processed records
are collected in order. -/
def run_records (fetch : Option PyStr → PyStr → PyStr) :
    List S3Record → Except DispatchError (List DispatchAction)
  | [] => Except.ok []
  | r :: rs =>
    if is_allowed_event r then
      match process_queue_record fetch r with
      | Except.error e => Except.error e
      | Except.ok a =>
        match run_records fetch rs with
        | Except.error e => Except.error e
        | Except.ok acts => Except.ok (a :: acts)
    else run_records fetch rs

/-- Function `lambda_handler` from `lambda_function.py`, after JSON parsing: the event
is a list of SQS records, each carrying a body that holds a list of S3 event
records, and the two nested `for` loops visit the S3 records in order. -/
def lambda_handler (fetch : Option PyStr → PyStr → PyStr)
    (event : List (List S3Record)) : Except DispatchError (List DispatchAction) :=
  run_records fetch event.flatten

/-- The `moderationLabelsResult` field produced by the DetectModerationLabels
task (`result_path='$.moderationLabelsResult'` in
`create_image_moderation_workflow`): the Rekognition response with its
`ModerationLabels` array.  Only presence of elements matters to the workflow,
so label payloads are kept abstract as strings. -/
structure ModerationLabelsResult where
  ModerationLabels : List PyStr
deriving DecidableEq, Repr

/-- The `textDetectionResult` field produced by the DetectText task
(`result_path='$.textDetectionResult'`): the Rekognition response with its
`TextDetections` array. -/
structure TextDetectionResult where
  TextDetections : List PyStr
deriving DecidableEq, Repr

/-- Output of one branch of the `ParallelRekognitionTasks` state: the branch
input `{objectKey}` with the branch's `result_path` field merged in.  Branch 0
(DetectModerationLabels) carries only `moderationLabelsResult`; branch 1
(DetectText) carries only `textDetectionResult`; the other field is absent. -/
structure BranchOutput where
  objectKey : PyStr
  moderationLabelsResult : Option ModerationLabelsResult
  textDetectionResult : Option TextDetectionResult
deriving DecidableEq, Repr

/-- Condition `States.IsPresent` on the path
`$.parallelResults[0].moderationLabelsResult.ModerationLabels[0]` from the
`EvaluateModeration` choice: true iff index 0 of `parallelResults` exists,
carries a `moderationLabelsResult`, and its `ModerationLabels` array has an
element at index 0. -/
def is_present_first_moderation_label (parallelResults : List BranchOutput) : Bool :=
  match parallelResults[0]? with
  | some b =>
    match b.moderationLabelsResult with
    | some r => decide (r.ModerationLabels ≠ [])
    | none => false
  | none => false

/-- Condition `States.IsPresent` on the path
`$.parallelResults[0].textDetectionResult.TextDetections[0]` from the
`EvaluateModeration` choice — the source indexes `parallelResults[0]` here as
well, even though the DetectText branch output sits at `parallelResults[1]`. -/
def is_present_first_text_detection (parallelResults : List BranchOutput) : Bool :=
  match parallelResults[0]? with
  | some b =>
    match b.textDetectionResult with
    | some r => decide (r.TextDetections ≠ [])
    | none => false
  | none => false

/-- The `{decision, reason, timestamp}` object written by the
`HandleInappropriateContent` / `HandleHighlyToxicContent` Pass states;
`timestamp` copies `$$.Execution.StartTime`. -/
structure PassDecision where
  decision : String
  reason : String
  timestamp : String
deriving DecidableEq, Repr

/-- Terminal states of the image moderation workflow: the Succeed state
`ImageApproved`, or the Succeed state `ImageModerationComplete` reached
through the `HandleInappropriateContent` Pass carrying its decision object. -/
inductive ImageTerminal
  | imageApproved
  | imageModerationComplete (d : PassDecision)
deriving DecidableEq, Repr

/-- The image moderation workflow from `create_image_moderation_workflow`,
with the two Rekognition evaluator responses abstracted as inputs: the
parallel state produces `parallelResults` as the ordered pair of branch
outputs (branch 0 DetectModerationLabels, branch 1 DetectText), and the
`EvaluateModeration` choice rejects when either `IsPresent` condition holds,
otherwise approves. -/
def image_moderation_workflow (startTime : String) (object_key : PyStr)
    (labels textDetections : List PyStr) : ImageTerminal :=
  let parallelResults : List BranchOutput :=
    [⟨object_key, some ⟨labels⟩, none⟩, ⟨object_key, none, some ⟨textDetections⟩⟩]
  if is_present_first_moderation_label parallelResults ||
      is_present_first_text_detection parallelResults then
    ImageTerminal.imageModerationComplete
      ⟨"REJECTED", "Image contains inappropriate content", startTime⟩
  else ImageTerminal.imageApproved

/-- Terminal states of the text moderation workflow: the Succeed state
`ContentApproved`, or the Succeed state `ModerationComplete` reached through
the `HandleHighlyToxicContent` Pass carrying its decision object. -/
inductive TextTerminal
  | contentApproved
  | moderationComplete (d : PassDecision)
deriving DecidableEq, Repr

/-- The text moderation workflow from `create_text_moderation_workflow`, with
the Comprehend toxicity response abstracted as the input score
(`$.toxicityResult.ResultList[0].Toxicity`): the `EvaluateToxicity` choice
takes the rejection branch when the score is numerically greater than or
equal to `0.9`, otherwise the `ContentApproved` branch.  JSON numbers are
modelled as rationals. -/
def text_moderation_workflow (startTime : String) (toxicity : ℚ) : TextTerminal :=
  if 9 / 10 ≤ toxicity then
    TextTerminal.moderationComplete
      ⟨"REJECTED", "Content contains highly toxic language", startTime⟩
  else TextTerminal.contentApproved

/-- Value `max_receive_count` of the `upload_sqs` queue's dead-letter configuration
in `ModerationStack.__init__`. -/
def upload_sqs_max_receive_count : Nat := 1

/-- Where a queue message currently lives. -/
inductive MsgLoc
  | live
  | inflight
  | deadLetter
deriving DecidableEq, Repr

/-- A message of the upload queue: how often it has been delivered to a
consumer, and where it currently is. -/
structure QueueMsg where
  receiveCount : Nat
  loc : MsgLoc
deriving DecidableEq, Repr

/-- One receive attempt under the documented SQS redrive policy the
`upload_sqs` configuration targets: receiving a message increments its
receive count, and a message whose receive count would exceed
`maxReceiveCount` is moved to the dead-letter queue instead of being
delivered. -/
def sqs_receive (maxReceiveCount : Nat) (m : QueueMsg) : QueueMsg :=
  if maxReceiveCount < m.receiveCount + 1 then { m with loc := MsgLoc.deadLetter }
  else { receiveCount := m.receiveCount + 1, loc := MsgLoc.inflight }

/-- A failed processing attempt: the consumer raises, the message is not
deleted, and after the visibility timeout it returns to the live queue. -/
def sqs_return (m : QueueMsg) : QueueMsg := { m with loc := MsgLoc.live }

/-- One receive attempt against a notification whose processing always
fails: a dead-lettered message stays put; otherwise the attempt either
dead-letters the message (receive budget exhausted) or delivers it, upon
which processing raises and the message returns to the live queue. -/
def failing_consumer_step (maxReceiveCount : Nat) (m : QueueMsg) : QueueMsg :=
  match m.loc with
  | MsgLoc.deadLetter => m
  | _ =>
    let d := sqs_receive maxReceiveCount m
    match d.loc with
    | MsgLoc.inflight => sqs_return d
    | _ => d

/-- State of a notification whose processing always fails, after `n` receive
attempts. -/
def failing_consumer_trace (maxReceiveCount : Nat) : Nat → QueueMsg
  | 0 => ⟨0, MsgLoc.live⟩
  | n + 1 => failing_consumer_step maxReceiveCount (failing_consumer_trace maxReceiveCount n)

example : determine_file_type (pyStr "abc-notes.txt") = FileType.text := by decide
example : determine_file_type (pyStr "ABC-PHOTO.PNG") = FileType.image := by decide
example : determine_file_type (pyStr "abc-doc.pdf") = FileType.unknown := by decide
example : determine_file_type (pyStr ".txt") = FileType.unknown := by decide
example : determine_file_type (pyStr "a.tar.md") = FileType.text := by decide

example : unquote_plus (pyStr "my+photo.png") = pyStr "my photo.png" := by decide
example : unquote_plus (pyStr "a%2Bb.png") = pyStr "a+b.png" := by decide
example : unquote_plus (pyStr "a%20b") = pyStr "a b" := by decide
example : unquote_plus (pyStr "caf%C3%A9.txt") = pyStr "café.txt" := by decide
example : unquote_plus (pyStr "100%.txt") = pyStr "100%.txt" := by decide
example : unquote_plus (pyStr "%E2%82") = [REPLACEMENT] := by decide

example :
    process_queue_record (fun _ _ => pyStr "you are worthless")
      ⟨some (pyStr "aws:s3"), some (pyStr "ObjectCreated:Put"),
        some ⟨some ⟨some (pyStr "uploads")⟩, some ⟨some (pyStr "abc-notes.txt")⟩⟩⟩ =
      Except.ok (DispatchAction.startText ⟨pyStr "you are worthless", pyStr "en"⟩) := by
  rfl

example :
    process_queue_record (fun _ _ => [])
      ⟨some (pyStr "aws:s3"), some (pyStr "ObjectCreated:Put"),
        some ⟨some ⟨some (pyStr "uploads")⟩, some ⟨some (pyStr "abc-doc.pdf")⟩⟩⟩ =
      Except.error (DispatchError.unsupportedContentType (pyStr "abc-doc.pdf")) := by
  rfl

theorem lowerChar_eq_iff (n c : Nat) (hc : c < 65) : lowerChar n = c ↔ n = c := by
  unfold lowerChar
  split <;> omega

theorem upperChar_eq_iff (n c : Nat) (hc : c < 65) : upperChar n = c ↔ n = c := by
  unfold upperChar
  split <;> omega

theorem lowerChar_lowerChar (n : Nat) : lowerChar (lowerChar n) = lowerChar n := by
  unfold lowerChar
  split <;> (try split) <;> omega

theorem lowerChar_upperChar (n : Nat) : lowerChar (upperChar n) = lowerChar n := by
  unfold lowerChar upperChar
  split <;> (try split) <;> (try split) <;> omega

theorem rfind_map (g : Nat → Nat) (c : Nat) (hg : ∀ n, g n = c ↔ n = c) (p : PyStr) :
    rfind c (p.map g) = rfind c p := by
  induction p with
  | nil => rfl
  | cons x xs ih =>
    simp only [List.map_cons, rfind, ih]
    by_cases h : (0 : Int) ≤ rfind c xs
    · simp [h]
    · simp only [h, if_false]
      by_cases hx : x = c
      · subst hx
        simp [(hg x).mpr rfl]
      · have hgx : ¬ g x = c := fun h2 => hx ((hg x).mp h2)
        simp [hx, hgx]

theorem any_ne_map (g : Nat → Nat) (c : Nat) (hg : ∀ n, g n = c ↔ n = c) (p : PyStr) :
    (p.map g).any (fun x => x ≠ c) = p.any (fun x => x ≠ c) := by
  induction p with
  | nil => rfl
  | cons x xs ih =>
    simp only [List.map_cons, List.any_cons, ih]
    by_cases hx : x = c
    · subst hx
      simp [(hg x).mpr rfl]
    · have hgx : ¬ g x = c := fun h2 => hx ((hg x).mp h2)
      simp [hx, hgx]

theorem splitext_map (g : Nat → Nat)
    (hdot : ∀ n, g n = code '.' ↔ n = code '.')
    (hsep : ∀ n, g n = code '/' ↔ n = code '/') (p : PyStr) :
    splitext (p.map g) = ((splitext p).1.map g, (splitext p).2.map g) := by
  simp only [splitext, rfind_map g _ hdot, rfind_map g _ hsep, ← List.map_drop,
    ← List.map_take, any_ne_map g _ hdot]
  split
  · split <;> simp
  · simp

theorem splitext_map_lowerChar (p : PyStr) :
    splitext (p.map lowerChar) = ((splitext p).1.map lowerChar, (splitext p).2.map lowerChar) :=
  splitext_map lowerChar
    (fun n => lowerChar_eq_iff n (code '.') (by decide))
    (fun n => lowerChar_eq_iff n (code '/') (by decide)) p

theorem splitext_map_upperChar (p : PyStr) :
    splitext (p.map upperChar) = ((splitext p).1.map upperChar, (splitext p).2.map upperChar) :=
  splitext_map upperChar
    (fun n => upperChar_eq_iff n (code '.') (by decide))
    (fun n => upperChar_eq_iff n (code '/') (by decide)) p

theorem text_image_extensions_disjoint (e : PyStr)
    (ht : e ∈ TEXT_EXTENSIONS) (hi : e ∈ IMAGE_EXTENSIONS) : False := by
  simp only [TEXT_EXTENSIONS, List.mem_cons, List.not_mem_nil, or_false] at ht
  rcases ht with h | h <;> subst h <;> revert hi <;> decide

/-- The lowercased extension the classifier inspects is the lowercasing of the
extension of the raw key. -/
theorem determine_file_type_ext (key : PyStr) :
    determine_file_type key =
      (if (splitext key).2.map lowerChar ∈ TEXT_EXTENSIONS then FileType.text
       else if (splitext key).2.map lowerChar ∈ IMAGE_EXTENSIONS then FileType.image
       else FileType.unknown) := by
  unfold determine_file_type
  rw [splitext_map_lowerChar]

/-- Claim C3: `determine_file_type` lowercases the key, extracts the filename
suffix, and returns `text` exactly when the lowercased suffix is `.txt` or
`.md`, `image` exactly when it is one of `.jpg`, `.jpeg`, `.png`, `.gif`,
`.bmp`, `.webp`, and `unknown` otherwise; the result is unchanged by
lower- or upper-casing the input key (case independence).  The function is a
total Lean definition, so it is pure with no failure modes. -/
theorem C3_classifier_characterization (key : PyStr) :
    (determine_file_type key = FileType.text ↔
      (splitext key).2.map lowerChar ∈ TEXT_EXTENSIONS) ∧
    (determine_file_type key = FileType.image ↔
      (splitext key).2.map lowerChar ∈ IMAGE_EXTENSIONS) ∧
    (determine_file_type key = FileType.unknown ↔
      (¬ (splitext key).2.map lowerChar ∈ TEXT_EXTENSIONS ∧
       ¬ (splitext key).2.map lowerChar ∈ IMAGE_EXTENSIONS)) ∧
    determine_file_type (key.map lowerChar) = determine_file_type key ∧
    determine_file_type (key.map upperChar) = determine_file_type key := by
  refine ⟨?_, ?_, ?_, ?_, ?_⟩
  · rw [determine_file_type_ext]
    split
    · simp_all
    · split <;> simp_all
  · rw [determine_file_type_ext]
    split
    · rename_i ht
      constructor
      · intro h
        exact absurd h (by decide)
      · intro hi
        exact absurd (text_image_extensions_disjoint _ ht hi) (fun h => h)
    · split <;> simp_all
  · rw [determine_file_type_ext]
    split
    · rename_i ht
      simp_all
    · split <;> simp_all
  · unfold determine_file_type
    rw [List.map_map]
    have : lowerChar ∘ lowerChar = lowerChar := funext lowerChar_lowerChar
    rw [this]
  · unfold determine_file_type
    rw [List.map_map]
    have : lowerChar ∘ upperChar = lowerChar := funext lowerChar_upperChar
    rw [this]

theorem pctTokenize_of_no_pct (s : PyStr) (h : code '%' ∉ s) :
    pctTokenize s = s.map PctTok.chr := by
  induction s using pctTokenize.induct <;> simp_all [pctTokenize]

theorem pctDetokAux_map_chr (s : PyStr) : pctDetokAux [] (s.map PctTok.chr) = s := by
  induction s with
  | nil => rfl
  | cons c cs ih => simp [pctDetokAux, utf8Decode, ih]

theorem unquote_of_no_pct (s : PyStr) (h : code '%' ∉ s) : unquote s = s := by
  unfold unquote pctDetokenize
  rw [pctTokenize_of_no_pct s h, pctDetokAux_map_chr]

theorem map_plusToSpace_no_pct (s : PyStr) (h : code '%' ∉ s) :
    code '%' ∉ s.map (fun n => if n = code '+' then code ' ' else n) := by
  intro hmem
  rcases List.mem_map.mp hmem with ⟨n, hn, heq⟩
  by_cases h43 : n = code '+'
  · simp [h43] at heq
    exact absurd heq (by decide)
  · simp [h43] at heq
    exact h (heq ▸ hn)

theorem map_plusToSpace_ne_of_mem (s : PyStr) (h : code '+' ∈ s) :
    s.map (fun n => if n = code '+' then code ' ' else n) ≠ s := by
  induction s with
  | nil => cases h
  | cons x xs ih =>
    simp only [List.map_cons]
    by_cases hx : x = code '+'
    · subst hx
      simp only [if_pos rfl]
      intro hcontra
      have := (List.cons.injEq _ _ _ _).mp hcontra
      exact absurd this.1 (by decide)
    · rcases List.mem_cons.mp h with h1 | h2
      · exact absurd h1.symm hx
      · simp only [if_neg hx]
        intro hcontra
        exact ih h2 ((List.cons.injEq _ _ _ _).mp hcontra).2

/-- Claim C10: the dispatcher URL-decodes object keys with `unquote_plus`, so
on a percent-free key every `+` becomes a space before the key is used; a key
containing `+` is therefore processed under a different key than the one in
the event, and (third conjunct) the workflow is started with the decoded
key. -/
theorem C10_plus_decoding (key : PyStr) (h : code '%' ∉ key) :
    unquote_plus key = key.map (fun n => if n = code '+' then code ' ' else n) ∧
    (code '+' ∈ key → unquote_plus key ≠ key) ∧
    (∀ (fetch : Option PyStr → PyStr → PyStr) (es en bn : Option PyStr),
      determine_file_type (unquote_plus key) = FileType.image → key ≠ [] →
      process_queue_record fetch ⟨es, en, some ⟨some ⟨bn⟩, some ⟨some key⟩⟩⟩ =
        Except.ok (DispatchAction.startImage ⟨unquote_plus key⟩)) := by
  have hdec : unquote_plus key = key.map (fun n => if n = code '+' then code ' ' else n) :=
    unquote_of_no_pct _ (map_plusToSpace_no_pct key h)
  refine ⟨hdec, ?_, ?_⟩
  · intro hplus
    rw [hdec]
    exact map_plusToSpace_ne_of_mem key hplus
  · intro fetch es en bn hft hk
    simp [process_queue_record, hk, hft, start_image_moderation_workflow]

/-- Witness for C10 at the concrete key `my+photo.png`: the decoded key is
`my photo.png`, differs from the raw key, and the image workflow is started
with the decoded key. -/
theorem C10_plus_decoding_witness :
    unquote_plus (pyStr "my+photo.png") =
      (pyStr "my+photo.png").map (fun n => if n = code '+' then code ' ' else n) ∧
    unquote_plus (pyStr "my+photo.png") ≠ pyStr "my+photo.png" ∧
    process_queue_record (fun _ _ => []) ⟨none, none,
        some ⟨some ⟨none⟩, some ⟨some (pyStr "my+photo.png")⟩⟩⟩ =
      Except.ok (DispatchAction.startImage ⟨unquote_plus (pyStr "my+photo.png")⟩) := by
  have h := C10_plus_decoding (pyStr "my+photo.png") (by decide)
  exact ⟨h.1, h.2.1 (by decide),
    h.2.2 (fun _ _ => []) none none none (by decide) (by decide)⟩

/-- Claim C5: a record whose `s3.object.key` is absent makes
`process_queue_record` raise the malformed-event error (`ValueError`, the
spec's `MalformedEventError`), and when such a record is reached by the
handler loop the whole message fails with that error rather than being
silently ignored. -/
theorem C5_missing_key_fails (fetch : Option PyStr → PyStr → PyStr)
    (record : S3Record) (rest : List S3Record)
    (h : ((record.s3.getD ⟨none, none⟩).object.getD ⟨none⟩).key = none) :
    process_queue_record fetch record =
      Except.error (DispatchError.malformedEvent record) ∧
    (is_allowed_event record = true →
      run_records fetch (record :: rest) =
        Except.error (DispatchError.malformedEvent record)) := by
  have h1 : process_queue_record fetch record =
      Except.error (DispatchError.malformedEvent record) := by
    simp [process_queue_record, h]
  refine ⟨h1, fun hallow => ?_⟩
  simp [run_records, hallow, h1]

/-- Witness for C5: a concrete allowed S3 creation record with no
`s3.object.key` field makes the dispatcher fail with the malformed-event
error, at both the record and the message level. -/
theorem C5_missing_key_fails_witness :
    process_queue_record (fun _ _ => [])
      ⟨some (pyStr "aws:s3"), some (pyStr "ObjectCreated:Put"),
        some ⟨some ⟨some (pyStr "uploads")⟩, none⟩⟩ =
      Except.error (DispatchError.malformedEvent
        ⟨some (pyStr "aws:s3"), some (pyStr "ObjectCreated:Put"),
          some ⟨some ⟨some (pyStr "uploads")⟩, none⟩⟩) ∧
    run_records (fun _ _ => [])
      [⟨some (pyStr "aws:s3"), some (pyStr "ObjectCreated:Put"),
        some ⟨some ⟨some (pyStr "uploads")⟩, none⟩⟩] =
      Except.error (DispatchError.malformedEvent
        ⟨some (pyStr "aws:s3"), some (pyStr "ObjectCreated:Put"),
          some ⟨some ⟨some (pyStr "uploads")⟩, none⟩⟩) := by
  have h := C5_missing_key_fails (fun _ _ => [])
    ⟨some (pyStr "aws:s3"), some (pyStr "ObjectCreated:Put"),
      some ⟨some ⟨some (pyStr "uploads")⟩, none⟩⟩ [] (by decide)
  exact ⟨h.1, h.2 (by decide)⟩

theorem run_records_skip (fetch : Option PyStr → PyStr → PyStr)
    (pre post : List S3Record) (r : S3Record) (h : is_allowed_event r = false) :
    run_records fetch (pre ++ r :: post) = run_records fetch (pre ++ post) := by
  induction pre with
  | nil => simp [run_records, h]
  | cons p ps ih => simp only [List.cons_append, run_records, List.append_eq, ih]

/-- Claim C6: a record whose `eventName` does not start with
`ObjectCreated:` (such as `ObjectRemoved:Delete`) is not an allowed event;
the handler loop skips it without raising an error and without starting any
workflow, producing exactly the outcome of processing the remaining
records. -/
theorem C6_non_creation_skipped (fetch : Option PyStr → PyStr → PyStr)
    (pre post : List S3Record) (r : S3Record)
    (h : startswith (r.eventName.getD []) (pyStr "ObjectCreated:") = false) :
    is_allowed_event r = false ∧
    run_records fetch (pre ++ r :: post) = run_records fetch (pre ++ post) := by
  have hall : is_allowed_event r = false := by
    unfold is_allowed_event
    rw [h, Bool.and_false]
  exact ⟨hall, run_records_skip fetch pre post r hall⟩

/-- Witness for C6: a concrete `ObjectRemoved:Delete` record over an image
key is skipped by the handler loop. -/
theorem C6_non_creation_skipped_witness :
    is_allowed_event
      ⟨some (pyStr "aws:s3"), some (pyStr "ObjectRemoved:Delete"),
        some ⟨some ⟨some (pyStr "uploads")⟩, some ⟨some (pyStr "abc-photo.png")⟩⟩⟩ = false ∧
    run_records (fun _ _ => [])
      [⟨some (pyStr "aws:s3"), some (pyStr "ObjectRemoved:Delete"),
        some ⟨some ⟨some (pyStr "uploads")⟩, some ⟨some (pyStr "abc-photo.png")⟩⟩⟩] =
      run_records (fun _ _ => []) [] :=
  C6_non_creation_skipped (fun _ _ => []) [] []
    ⟨some (pyStr "aws:s3"), some (pyStr "ObjectRemoved:Delete"),
      some ⟨some ⟨some (pyStr "uploads")⟩, some ⟨some (pyStr "abc-photo.png")⟩⟩⟩
    (by decide)

/-- Claim C9: a record is allowed only when its `eventSource` is `aws:s3` and
its `eventName` starts with `ObjectCreated:`; any record with a different
`eventSource` — even one whose `eventName` denotes object creation — is
skipped by the handler loop without error and without starting a workflow. -/
theorem C9_requires_s3_event_source (fetch : Option PyStr → PyStr → PyStr)
    (pre post : List S3Record) (r : S3Record)
    (h : r.eventSource ≠ some (pyStr "aws:s3")) :
    is_allowed_event r =
      (decide (r.eventSource = some (pyStr "aws:s3")) &&
        startswith (r.eventName.getD []) (pyStr "ObjectCreated:")) ∧
    is_allowed_event r = false ∧
    run_records fetch (pre ++ r :: post) = run_records fetch (pre ++ post) := by
  have hall : is_allowed_event r = false := by
    unfold is_allowed_event
    rw [decide_eq_false h, Bool.false_and]
  exact ⟨rfl, hall, run_records_skip fetch pre post r hall⟩

/-- Witness for C9: a concrete record with `eventName = ObjectCreated:Put`
but `eventSource = aws:sns` is skipped by the handler loop. -/
theorem C9_requires_s3_event_source_witness :
    is_allowed_event
      ⟨some (pyStr "aws:sns"), some (pyStr "ObjectCreated:Put"),
        some ⟨some ⟨some (pyStr "uploads")⟩, some ⟨some (pyStr "abc-photo.png")⟩⟩⟩ = false ∧
    run_records (fun _ _ => [])
      [⟨some (pyStr "aws:sns"), some (pyStr "ObjectCreated:Put"),
        some ⟨some ⟨some (pyStr "uploads")⟩, some ⟨some (pyStr "abc-photo.png")⟩⟩⟩] =
      run_records (fun _ _ => []) [] := by
  have h := C9_requires_s3_event_source (fun _ _ => []) [] []
    ⟨some (pyStr "aws:sns"), some (pyStr "ObjectCreated:Put"),
      some ⟨some ⟨some (pyStr "uploads")⟩, some ⟨some (pyStr "abc-photo.png")⟩⟩⟩
    (by decide)
  exact ⟨h.2.1, h.2.2⟩

/-- Claim C7: a record whose decoded key is classified `unknown` (neither a
text nor an image suffix) makes `process_queue_record` raise the
unsupported-content-type error (`ValueError`, the spec's
`UnsupportedContentTypeError`) and start no workflow. -/
theorem C7_unsupported_type_fails (fetch : Option PyStr → PyStr → PyStr)
    (es en bn : Option PyStr) (k : PyStr) (hk : k ≠ [])
    (hft : determine_file_type (unquote_plus k) = FileType.unknown) :
    process_queue_record fetch ⟨es, en, some ⟨some ⟨bn⟩, some ⟨some k⟩⟩⟩ =
      Except.error (DispatchError.unsupportedContentType (unquote_plus k)) := by
  simp [process_queue_record, hk, hft]

/-- Witness for C7 at the spec's scenario key `abc-doc.pdf`. -/
theorem C7_unsupported_type_fails_witness :
    process_queue_record (fun _ _ => [])
      ⟨some (pyStr "aws:s3"), some (pyStr "ObjectCreated:Put"),
        some ⟨some ⟨some (pyStr "uploads")⟩, some ⟨some (pyStr "abc-doc.pdf")⟩⟩⟩ =
      Except.error (DispatchError.unsupportedContentType (unquote_plus (pyStr "abc-doc.pdf"))) :=
  C7_unsupported_type_fails (fun _ _ => []) (some (pyStr "aws:s3"))
    (some (pyStr "ObjectCreated:Put")) (some (pyStr "uploads")) (pyStr "abc-doc.pdf")
    (by decide) (by decide)

/-- Claim C8: a record whose decoded key is classified `text` makes the
dispatcher fetch the payload from storage for that bucket and decoded key,
and start the Text Workflow with input exactly `{inputText := the decoded
payload, languageCode := "en"}` (the default language code). -/
theorem C8_text_start_input (fetch : Option PyStr → PyStr → PyStr)
    (es en bn : Option PyStr) (k : PyStr) (hk : k ≠ [])
    (hft : determine_file_type (unquote_plus k) = FileType.text) :
    process_queue_record fetch ⟨es, en, some ⟨some ⟨bn⟩, some ⟨some k⟩⟩⟩ =
      Except.ok (DispatchAction.startText ⟨fetch bn (unquote_plus k), pyStr "en"⟩) := by
  simp [process_queue_record, hk, hft, start_text_moderation_workflow]

/-- Witness for C8 at the spec's scenario: key `abc-notes.txt` with stored
payload `you are worthless` starts the Text Workflow with that payload and
language code `en`. -/
theorem C8_text_start_input_witness :
    process_queue_record (fun _ _ => pyStr "you are worthless")
      ⟨some (pyStr "aws:s3"), some (pyStr "ObjectCreated:Put"),
        some ⟨some ⟨some (pyStr "uploads")⟩, some ⟨some (pyStr "abc-notes.txt")⟩⟩⟩ =
      Except.ok (DispatchAction.startText
        ⟨(fun (_ : Option PyStr) (_ : PyStr) => pyStr "you are worthless")
            (some (pyStr "uploads")) (unquote_plus (pyStr "abc-notes.txt")),
          pyStr "en"⟩) :=
  C8_text_start_input (fun _ _ => pyStr "you are worthless") (some (pyStr "aws:s3"))
    (some (pyStr "ObjectCreated:Put")) (some (pyStr "uploads")) (pyStr "abc-notes.txt")
    (by decide) (by decide)

/-- Claim C2: the text workflow terminates in the `ModerationComplete`
rejection state with reason "Content contains highly toxic language" iff the
toxicity score is at least `0.9`, and in `ContentApproved` otherwise; at the
boundary, a score of exactly `0.9` is rejected and `0.8999` is approved. -/
theorem C2_toxicity_threshold (startTime : String) (s : ℚ) :
    (text_moderation_workflow startTime s =
        TextTerminal.moderationComplete
          ⟨"REJECTED", "Content contains highly toxic language", startTime⟩ ↔
      9 / 10 ≤ s) ∧
    (text_moderation_workflow startTime s = TextTerminal.contentApproved ↔ s < 9 / 10) ∧
    text_moderation_workflow startTime (9 / 10) =
      TextTerminal.moderationComplete
        ⟨"REJECTED", "Content contains highly toxic language", startTime⟩ ∧
    text_moderation_workflow startTime (8999 / 10000) = TextTerminal.contentApproved := by
  unfold text_moderation_workflow
  refine ⟨?_, ?_, ?_, ?_⟩
  · split
    · simp_all
    · simp_all
  · split
    · rename_i hle
      simp [not_lt.mpr hle]
    · rename_i hlt
      simp [lt_of_not_ge hlt]
  · rw [if_pos (le_refl _)]
  · rw [if_neg (by norm_num)]

/-- Claim C1 (refuted, code bug): the `EvaluateModeration` choice reads both
Rekognition results under `$.parallelResults[0]`, which is the output of the
moderation-labels branch; `textDetectionResult` is never present there, so
the second `IsPresent` condition is always false.  The decision is therefore
Rejected iff moderation labels were found, and detected embedded text alone
never causes rejection: an image with no moderation labels and one detected
text element is approved, contradicting the claimed logical OR. -/
theorem C1_image_decision_ignores_detected_text (startTime : String) (object_key : PyStr)
    (labels textDetections : List PyStr) :
    (image_moderation_workflow startTime object_key labels textDetections =
        ImageTerminal.imageModerationComplete
          ⟨"REJECTED", "Image contains inappropriate content", startTime⟩ ↔
      labels ≠ []) ∧
    image_moderation_workflow "2024-01-01T00:00:00Z" (pyStr "abc-photo.png")
        [] [pyStr "STOP"] =
      ImageTerminal.imageApproved := by
  constructor
  · by_cases hl : labels = []
    · subst hl
      simp [image_moderation_workflow, is_present_first_moderation_label,
        is_present_first_text_detection]
    · simp [image_moderation_workflow, is_present_first_moderation_label,
        is_present_first_text_detection, hl]
  · rfl

theorem failing_consumer_trace_stable (n : Nat) :
    failing_consumer_trace upload_sqs_max_receive_count (n + 2) =
      ⟨1, MsgLoc.deadLetter⟩ := by
  induction n with
  | zero => rfl
  | succ k ih =>
    have hstep : failing_consumer_trace upload_sqs_max_receive_count (k + 1 + 2) =
        failing_consumer_step upload_sqs_max_receive_count
          (failing_consumer_trace upload_sqs_max_receive_count (k + 2)) := rfl
    rw [hstep, ih]
    rfl

/-- Counterexample to Claim C4 as stated: with the configured
`max_receive_count = 1`, after two receive attempts the always-failing
notification is already in the dead-letter queue having been delivered to the
Dispatcher exactly once — there is no second delivery and hence no "second
failure" on the live queue, contrary to the claim's one-redelivery reading. -/
theorem C4_single_delivery_counterexample :
    (failing_consumer_trace upload_sqs_max_receive_count 2).loc = MsgLoc.deadLetter ∧
    (failing_consumer_trace upload_sqs_max_receive_count 2).receiveCount = 1 :=
  ⟨rfl, rfl⟩

/-- Claim C4 as amended: a notification that fails processing is never
redelivered to the Dispatcher — with `max_receive_count = 1` it is delivered
at most once in total, and from the second receive attempt on (i.e. at the
first receive after the first failure) it sits in the dead-letter queue. -/
theorem C4_no_redelivery (n : Nat) :
    (failing_consumer_trace upload_sqs_max_receive_count n).receiveCount ≤ 1 ∧
    (2 ≤ n →
      failing_consumer_trace upload_sqs_max_receive_count n = ⟨1, MsgLoc.deadLetter⟩) := by
  match n with
  | 0 => exact ⟨by decide, by omega⟩
  | 1 => exact ⟨by decide, by omega⟩
  | k + 2 =>
    rw [failing_consumer_trace_stable k]
    exact ⟨le_refl 1, fun _ => rfl⟩

/-- Witness for the amended C4 at `n = 2` receive attempts. -/
theorem C4_no_redelivery_witness :
    (failing_consumer_trace upload_sqs_max_receive_count 2).receiveCount ≤ 1 ∧
    failing_consumer_trace upload_sqs_max_receive_count 2 = ⟨1, MsgLoc.deadLetter⟩ :=
  ⟨(C4_no_redelivery 2).1, (C4_no_redelivery 2).2 (by decide)⟩

end ModerationPlatform
